import Mathlib

/-!
Shallow embedding of the `gl_utils` Go package (files `math.go` and
`texture.go`) together with theorems checking the natural-language
specification against it.

Conventions of the embedding:
* Go `float32`/`float64` arithmetic in the geometry helpers is modelled over
  exact numbers: `ℚ` where the code only compares values (`GetBoundingBox`),
  `ℝ` where it uses trigonometry (`CircleToPolygon`).  The float32-to-float64
  narrowing of `Mat4From64to32Bits` is abstracted as a conversion parameter.
* Go `int`/`int32`/`uint32` casts are modelled on `ℤ` with explicit wrapping.
* The OpenGL API is modelled as a state machine (`World`) recording the
  currently bound `TEXTURE_2D` name, the active texture unit, a fresh-name
  counter for `glGenTextures`, the full list of GL calls issued, and the
  lines printed to standard output.
* External collaborators (the image decoder, `image.NewGray`/`image.NewRGBA`
  buffer strides) are inputs of the model, as the spec treats them.
-/

/-- 2D vector, modelling `mgl32.Vec2` (a pair of coordinates). -/
structure Vec2 (α : Type) where
  x : α
  y : α
deriving DecidableEq, Repr

/-- Componentwise addition, modelling `mgl32.Vec2.Add`. -/
def Vec2.add {α : Type} [Add α] (a b : Vec2 α) : Vec2 α :=
  ⟨a.x + b.x, a.y + b.y⟩

/-- Componentwise subtraction (used only in statements, to speak about the
offset of a vertex from the circle center). -/
def Vec2.sub {α : Type} [Sub α] (a b : Vec2 α) : Vec2 α :=
  ⟨a.x - b.x, a.y - b.y⟩

/-! ## `GetBoundingBox` (math.go lines 33–55)

The Go code works on `float32` values but performs only comparisons, never
arithmetic, so it is embedded over `ℚ` (every finite float32 is a rational
and float comparison agrees with rational comparison). -/

/-- `math.MaxFloat32` = (2 − 2⁻²³)·2¹²⁷ as an exact rational. -/
def maxFloat32 : ℚ := (2 ^ 24 - 1) * 2 ^ 104

/-- One iteration of the `GetBoundingBox` loop body: updates the running
`(minX, minY, maxX, maxY)` state with one point, exactly as the four `if`
statements in the source do. -/
def bbStep (s : ℚ × ℚ × ℚ × ℚ) (p : Vec2 ℚ) : ℚ × ℚ × ℚ × ℚ :=
  let minX := if p.x < s.1 then p.x else s.1
  let minY := if p.y < s.2.1 then p.y else s.2.1
  let maxX := if p.x > s.2.2.1 then p.x else s.2.2.1
  let maxY := if p.y > s.2.2.2 then p.y else s.2.2.2
  (minX, minY, maxX, maxY)

/-- `GetBoundingBox`: single pass over the points starting from the
sentinel state (`MaxFloat32`, `MaxFloat32`, `-MaxFloat32`, `-MaxFloat32`),
returning the (min, max) corners. -/
def GetBoundingBox (points : List (Vec2 ℚ)) : Vec2 ℚ × Vec2 ℚ :=
  let s := points.foldl bbStep (maxFloat32, maxFloat32, -maxFloat32, -maxFloat32)
  (⟨s.1, s.2.1⟩, ⟨s.2.2.1, s.2.2.2⟩)

/-- The running-minimum fold performed on one coordinate by the loop. -/
def foldMin (i : ℚ) (l : List ℚ) : ℚ :=
  l.foldl (fun m v => if v < m then v else m) i

/-- The running-maximum fold performed on one coordinate by the loop. -/
def foldMax (i : ℚ) (l : List ℚ) : ℚ :=
  l.foldl (fun m v => if v > m then v else m) i

theorem foldMin_cons (i v : ℚ) (l : List ℚ) :
    foldMin i (v :: l) = foldMin (if v < i then v else i) l := rfl

theorem foldMax_cons (i v : ℚ) (l : List ℚ) :
    foldMax i (v :: l) = foldMax (if v > i then v else i) l := rfl

theorem foldMin_le_init (l : List ℚ) : ∀ i : ℚ, foldMin i l ≤ i := by
  induction l with
  | nil => intro i; simp [foldMin]
  | cons v t ih =>
    intro i
    rw [foldMin_cons]
    refine le_trans (ih _) ?_
    split <;> simp_all [le_of_lt]

theorem foldMin_le_mem (l : List ℚ) :
    ∀ i : ℚ, ∀ v ∈ l, foldMin i l ≤ v := by
  induction l with
  | nil => intro i v hv; simp at hv
  | cons w t ih =>
    intro i v hv
    rw [foldMin_cons]
    rcases List.mem_cons.mp hv with h | h
    · subst h
      refine le_trans (foldMin_le_init t _) ?_
      split <;> simp_all [le_of_lt, le_refl]
    · exact ih _ v h

theorem foldMin_attained (l : List ℚ) :
    ∀ i : ℚ, foldMin i l = i ∨ foldMin i l ∈ l := by
  induction l with
  | nil => intro i; left; rfl
  | cons w t ih =>
    intro i
    rw [foldMin_cons]
    rcases ih (if w < i then w else i) with h | h
    · rw [h]
      split
      · right; exact List.mem_cons_self _ _
      · left; rfl
    · right; exact List.mem_cons_of_mem _ h

theorem foldMax_init_le (l : List ℚ) : ∀ i : ℚ, i ≤ foldMax i l := by
  induction l with
  | nil => intro i; simp [foldMax]
  | cons v t ih =>
    intro i
    rw [foldMax_cons]
    refine le_trans ?_ (ih _)
    split <;> simp_all [le_of_lt]

theorem foldMax_mem_le (l : List ℚ) :
    ∀ i : ℚ, ∀ v ∈ l, v ≤ foldMax i l := by
  induction l with
  | nil => intro i v hv; simp at hv
  | cons w t ih =>
    intro i v hv
    rw [foldMax_cons]
    rcases List.mem_cons.mp hv with h | h
    · subst h
      refine le_trans ?_ (foldMax_init_le t _)
      split <;> simp_all [le_of_lt, le_refl]
    · exact ih _ v h

theorem foldMax_attained (l : List ℚ) :
    ∀ i : ℚ, foldMax i l = i ∨ foldMax i l ∈ l := by
  induction l with
  | nil => intro i; left; rfl
  | cons w t ih =>
    intro i
    rw [foldMax_cons]
    rcases ih (if w > i then w else i) with h | h
    · rw [h]
      split
      · right; exact List.mem_cons_self _ _
      · left; rfl
    · right; exact List.mem_cons_of_mem _ h

/-- The four accumulators of the `GetBoundingBox` loop are independent:
the loop decomposes into four single-coordinate folds. -/
theorem bb_decomp (l : List (Vec2 ℚ)) :
    ∀ a b c d : ℚ,
      l.foldl bbStep (a, b, c, d) =
        (foldMin a (l.map Vec2.x), foldMin b (l.map Vec2.y),
         foldMax c (l.map Vec2.x), foldMax d (l.map Vec2.y)) := by
  induction l with
  | nil => intro a b c d; rfl
  | cons p t ih =>
    intro a b c d
    simp only [List.foldl_cons, List.map_cons, bbStep]
    rw [ih, foldMin_cons, foldMin_cons, foldMax_cons, foldMax_cons]

/-! ## `Mat4From64to32Bits` (math.go lines 57–76)

Go's `float32(x)` narrowing of a `float64` is an external language
primitive; it is abstracted here as a conversion function `narrow`.
A 4×4 matrix (`mgl64.Mat4` / `mgl32.Mat4`) is a flat array of 16 elements
in column-major order. -/

/-- A 4×4 matrix as its flat 16-element column-major array. -/
def Mat4 (α : Type) : Type := Fin 16 → α

/-- `Mat4From64to32Bits`: each of the 16 elements is narrowed in place,
exactly as the 16 `float32(mat[i])` entries of the source literal. -/
def Mat4From64to32Bits {α β : Type} (narrow : α → β) (mat : Mat4 α) : Mat4 β :=
  ![narrow (mat 0), narrow (mat 1), narrow (mat 2), narrow (mat 3),
    narrow (mat 4), narrow (mat 5), narrow (mat 6), narrow (mat 7),
    narrow (mat 8), narrow (mat 9), narrow (mat 10), narrow (mat 11),
    narrow (mat 12), narrow (mat 13), narrow (mat 14), narrow (mat 15)]

/-- The 4×4 identity matrix in flat column-major form (`mgl64.Ident4` /
`mgl32.Ident4`). -/
def mat4Ident {α : Type} [Zero α] [One α] : Mat4 α :=
  ![1, 0, 0, 0,
    0, 1, 0, 0,
    0, 0, 1, 0,
    0, 0, 0, 1]

/-! ## `CircleToPolygon` (math.go lines 12–30)

Embedded over `ℝ` (the float32 trigonometry idealized as exact reals, per
the spec's "± floating-point tolerance"). -/

/-- `mgl32.Rotate2D θ` applied via `Mul2x1`: the rotation of a 2D vector by
angle `θ`. -/
noncomputable def Rotate2D (θ : ℝ) (v : Vec2 ℝ) : Vec2 ℝ :=
  ⟨Real.cos θ * v.x - Real.sin θ * v.y,
   Real.sin θ * v.x + Real.cos θ * v.y⟩

/-- The vertex-emission loop of `CircleToPolygon`: `k` iterations, each
appending `point + center` and then rotating `point`. -/
noncomputable def circleLoop (rot : Vec2 ℝ → Vec2 ℝ) (center : Vec2 ℝ) :
    Vec2 ℝ → ℕ → List (Vec2 ℝ)
  | _, 0 => []
  | point, k + 1 => (point.add center) :: circleLoop rot center (rot point) k

/-- `CircleToPolygon`: validates the radius and segment count, then emits
`numSegments` vertices starting from the start angle, advancing by the
fixed rotation `2π/numSegments` each step. -/
noncomputable def CircleToPolygon (center : Vec2 ℝ) (radius : ℝ)
    (numSegments : ℤ) (startAngle : ℝ) : Except String (List (Vec2 ℝ)) :=
  if radius ≤ 0 then .error "Radius cannot be <=0"
  else if numSegments < 3 then .error "numSegments must be >= 3"
  else .ok (circleLoop (Rotate2D (Real.pi * 2 / (numSegments : ℝ))) center
      (Rotate2D startAngle ⟨radius, 0⟩) numSegments.toNat)

/-- Squared Euclidean norm of a 2D vector. -/
def norm2 (v : Vec2 ℝ) : ℝ := v.x ^ 2 + v.y ^ 2

theorem Rotate2D_norm2 (θ : ℝ) (v : Vec2 ℝ) : norm2 (Rotate2D θ v) = norm2 v := by
  simp only [norm2, Rotate2D]
  have h := Real.sin_sq_add_cos_sq θ
  ring_nf
  nlinarith [h]

theorem circleLoop_length (rot : Vec2 ℝ → Vec2 ℝ) (center : Vec2 ℝ) :
    ∀ (p : Vec2 ℝ) (k : ℕ), (circleLoop rot center p k).length = k := by
  intro p k
  induction k generalizing p with
  | zero => rfl
  | succ n ih => simp [circleLoop, ih]

theorem circleLoop_norm2 (rot : Vec2 ℝ → Vec2 ℝ) (center : Vec2 ℝ)
    (hrot : ∀ v, norm2 (rot v) = norm2 v) (r2 : ℝ) :
    ∀ (p : Vec2 ℝ) (k : ℕ), norm2 p = r2 →
      ∀ q ∈ circleLoop rot center p k, norm2 (q.sub center) = r2 := by
  intro p k
  induction k generalizing p with
  | zero => intro _ q hq; simp [circleLoop] at hq
  | succ n ih =>
    intro hp q hq
    rcases List.mem_cons.mp hq with h | h
    · subst h
      have : (p.add center).sub center = p := by
        simp [Vec2.add, Vec2.sub]
      rw [this, hp]
    · exact ih (rot p) (by rw [hrot, hp]) q h

/-! ## Claims about `math.go` -/

/-- Claim C2: for every center, startAngle, radius > 0 and integer
numSegments ≥ 3, `CircleToPolygon` returns successfully a list of exactly
`numSegments` vertices, each at distance `radius` from `center` (exact in
the real-valued model). -/
theorem CircleToPolygon_count_dist (center : Vec2 ℝ) (radius : ℝ)
    (numSegments : ℤ) (startAngle : ℝ)
    (hr : 0 < radius) (hn : 3 ≤ numSegments) :
    ∃ vs, CircleToPolygon center radius numSegments startAngle = .ok vs ∧
      (vs.length : ℤ) = numSegments ∧
      ∀ p ∈ vs,
        Real.sqrt ((p.x - center.x) ^ 2 + (p.y - center.y) ^ 2) = radius := by
  simp only [CircleToPolygon, if_neg (not_le.mpr hr), if_neg (not_lt.mpr hn)]
  refine ⟨_, rfl, ?_, ?_⟩
  · rw [circleLoop_length]
    omega
  · intro p hp
    have hstart : norm2 (Rotate2D startAngle ⟨radius, 0⟩) = radius ^ 2 := by
      rw [Rotate2D_norm2]
      simp [norm2]
    have h2 := circleLoop_norm2 (Rotate2D (Real.pi * 2 / (numSegments : ℝ)))
      center (fun v => Rotate2D_norm2 _ v) (radius ^ 2) _ _ hstart p hp
    have hx : (p.x - center.x) ^ 2 + (p.y - center.y) ^ 2 = radius ^ 2 := by
      simpa [norm2, Vec2.sub] using h2
    rw [hx, Real.sqrt_sq hr.le]

/-- Claim C2 witness: radius 1, 3 segments, center at the origin. -/
theorem CircleToPolygon_count_dist_witness :
    ∃ vs, CircleToPolygon ⟨0, 0⟩ 1 3 0 = .ok vs ∧ (vs.length : ℤ) = 3 ∧
      ∀ p ∈ vs,
        Real.sqrt ((p.x - (Vec2.mk (0:ℝ) 0).x) ^ 2 +
          (p.y - (Vec2.mk (0:ℝ) 0).y) ^ 2) = 1 :=
  CircleToPolygon_count_dist ⟨0, 0⟩ 1 3 0 one_pos (by decide)

/-- Claim C5: `CircleToPolygon` fails (returns an error, no vertex list)
iff radius ≤ 0 or numSegments < 3; in particular radius −1 with 3 segments
fails and radius 1 with 2 segments fails. -/
theorem CircleToPolygon_invalid_iff :
    (∀ (center : Vec2 ℝ) (radius : ℝ) (numSegments : ℤ) (startAngle : ℝ),
        (∃ e, CircleToPolygon center radius numSegments startAngle =
          Except.error e) ↔ radius ≤ 0 ∨ numSegments < 3) ∧
    (∀ (center : Vec2 ℝ) (startAngle : ℝ),
        ∃ e, CircleToPolygon center (-1) 3 startAngle = Except.error e) ∧
    (∀ (center : Vec2 ℝ) (startAngle : ℝ),
        ∃ e, CircleToPolygon center 1 2 startAngle = Except.error e) := by
  have key : ∀ (center : Vec2 ℝ) (radius : ℝ) (numSegments : ℤ) (startAngle : ℝ),
      (∃ e, CircleToPolygon center radius numSegments startAngle =
        Except.error e) ↔ radius ≤ 0 ∨ numSegments < 3 := by
    intro c r n θ
    simp only [CircleToPolygon]
    split_ifs with h1 h2
    · simp [h1]
    · simp [h1, h2]
    · simp [h1, h2]
  refine ⟨key, ?_, ?_⟩
  · intro c θ
    exact (key c (-1) 3 θ).mpr (Or.inl (by norm_num))
  · intro c θ
    exact (key c 1 2 θ).mpr (Or.inr (by norm_num))

/-- Claim C6: `GetBoundingBox` on the empty list returns the degenerate box
min = (+MaxFloat32, +MaxFloat32), max = (−MaxFloat32, −MaxFloat32). -/
theorem GetBoundingBox_empty :
    GetBoundingBox [] = (⟨maxFloat32, maxFloat32⟩, ⟨-maxFloat32, -maxFloat32⟩) :=
  rfl

/-- Claim C9: on a non-empty list of points with all coordinates in the
finite float32 range, `GetBoundingBox` returns a box that contains every
point, and each of the four box coordinates is attained by some point. -/
theorem GetBoundingBox_bounds (points : List (Vec2 ℚ))
    (hne : points ≠ [])
    (hfin : ∀ p ∈ points, -maxFloat32 ≤ p.x ∧ p.x ≤ maxFloat32 ∧
        -maxFloat32 ≤ p.y ∧ p.y ≤ maxFloat32) :
    (∀ p ∈ points,
      (GetBoundingBox points).1.x ≤ p.x ∧ p.x ≤ (GetBoundingBox points).2.x ∧
      (GetBoundingBox points).1.y ≤ p.y ∧ p.y ≤ (GetBoundingBox points).2.y) ∧
    (∃ p ∈ points, p.x = (GetBoundingBox points).1.x) ∧
    (∃ p ∈ points, p.y = (GetBoundingBox points).1.y) ∧
    (∃ p ∈ points, p.x = (GetBoundingBox points).2.x) ∧
    (∃ p ∈ points, p.y = (GetBoundingBox points).2.y) := by
  have hbb : GetBoundingBox points =
      (⟨foldMin maxFloat32 (points.map Vec2.x),
        foldMin maxFloat32 (points.map Vec2.y)⟩,
       ⟨foldMax (-maxFloat32) (points.map Vec2.x),
        foldMax (-maxFloat32) (points.map Vec2.y)⟩) := by
    simp only [GetBoundingBox]
    rw [bb_decomp]
  obtain ⟨p0, hp0⟩ := List.exists_mem_of_ne_nil points hne
  rw [hbb]
  refine ⟨?_, ?_, ?_, ?_, ?_⟩
  · intro p hp
    exact ⟨foldMin_le_mem _ _ _ (List.mem_map_of_mem _ hp),
      foldMax_mem_le _ _ _ (List.mem_map_of_mem _ hp),
      foldMin_le_mem _ _ _ (List.mem_map_of_mem _ hp),
      foldMax_mem_le _ _ _ (List.mem_map_of_mem _ hp)⟩
  · rcases foldMin_attained (points.map Vec2.x) maxFloat32 with h | h
    · refine ⟨p0, hp0, le_antisymm ?_ ?_⟩
      · rw [h]; exact (hfin p0 hp0).2.1
      · exact foldMin_le_mem _ _ _ (List.mem_map_of_mem _ hp0)
    · obtain ⟨q, hq, hqx⟩ := List.mem_map.mp h
      exact ⟨q, hq, hqx⟩
  · rcases foldMin_attained (points.map Vec2.y) maxFloat32 with h | h
    · refine ⟨p0, hp0, le_antisymm ?_ ?_⟩
      · rw [h]; exact (hfin p0 hp0).2.2.2
      · exact foldMin_le_mem _ _ _ (List.mem_map_of_mem _ hp0)
    · obtain ⟨q, hq, hqy⟩ := List.mem_map.mp h
      exact ⟨q, hq, hqy⟩
  · rcases foldMax_attained (points.map Vec2.x) (-maxFloat32) with h | h
    · refine ⟨p0, hp0, le_antisymm ?_ ?_⟩
      · exact foldMax_mem_le _ _ _ (List.mem_map_of_mem _ hp0)
      · rw [h]; exact (hfin p0 hp0).1
    · obtain ⟨q, hq, hqx⟩ := List.mem_map.mp h
      exact ⟨q, hq, hqx⟩
  · rcases foldMax_attained (points.map Vec2.y) (-maxFloat32) with h | h
    · refine ⟨p0, hp0, le_antisymm ?_ ?_⟩
      · exact foldMax_mem_le _ _ _ (List.mem_map_of_mem _ hp0)
      · rw [h]; exact (hfin p0 hp0).2.2.1
    · obtain ⟨q, hq, hqy⟩ := List.mem_map.mp h
      exact ⟨q, hq, hqy⟩

/-- Claim C9 witness: the spec's example list [(1,2),(3,0),(−1,5)]. -/
theorem GetBoundingBox_bounds_witness :
    (∀ p ∈ [Vec2.mk (1:ℚ) 2, Vec2.mk 3 0, Vec2.mk (-1) 5],
      (GetBoundingBox [Vec2.mk (1:ℚ) 2, Vec2.mk 3 0, Vec2.mk (-1) 5]).1.x ≤ p.x ∧
      p.x ≤ (GetBoundingBox [Vec2.mk (1:ℚ) 2, Vec2.mk 3 0, Vec2.mk (-1) 5]).2.x ∧
      (GetBoundingBox [Vec2.mk (1:ℚ) 2, Vec2.mk 3 0, Vec2.mk (-1) 5]).1.y ≤ p.y ∧
      p.y ≤ (GetBoundingBox [Vec2.mk (1:ℚ) 2, Vec2.mk 3 0, Vec2.mk (-1) 5]).2.y) ∧
    (∃ p ∈ [Vec2.mk (1:ℚ) 2, Vec2.mk 3 0, Vec2.mk (-1) 5],
      p.x = (GetBoundingBox [Vec2.mk (1:ℚ) 2, Vec2.mk 3 0, Vec2.mk (-1) 5]).1.x) ∧
    (∃ p ∈ [Vec2.mk (1:ℚ) 2, Vec2.mk 3 0, Vec2.mk (-1) 5],
      p.y = (GetBoundingBox [Vec2.mk (1:ℚ) 2, Vec2.mk 3 0, Vec2.mk (-1) 5]).1.y) ∧
    (∃ p ∈ [Vec2.mk (1:ℚ) 2, Vec2.mk 3 0, Vec2.mk (-1) 5],
      p.x = (GetBoundingBox [Vec2.mk (1:ℚ) 2, Vec2.mk 3 0, Vec2.mk (-1) 5]).2.x) ∧
    (∃ p ∈ [Vec2.mk (1:ℚ) 2, Vec2.mk 3 0, Vec2.mk (-1) 5],
      p.y = (GetBoundingBox [Vec2.mk (1:ℚ) 2, Vec2.mk 3 0, Vec2.mk (-1) 5]).2.y) :=
  GetBoundingBox_bounds _ (by simp) (by norm_num [maxFloat32])

/-- Claim C10: `Mat4From64to32Bits` narrows each of the 16 elements in the
same position, and (whenever the narrowing conversion preserves 0 and 1, as
IEEE-754 narrowing does) maps the identity matrix to the identity matrix. -/
theorem Mat4From64to32Bits_spec {α β : Type} [Zero α] [One α] [Zero β] [One β]
    (narrow : α → β) (h0 : narrow 0 = 0) (h1 : narrow 1 = 1) :
    (∀ (mat : Mat4 α) (i : Fin 16),
        Mat4From64to32Bits narrow mat i = narrow (mat i)) ∧
    Mat4From64to32Bits narrow mat4Ident = (mat4Ident : Mat4 β) := by
  have helem : ∀ (mat : Mat4 α) (i : Fin 16),
      Mat4From64to32Bits narrow mat i = narrow (mat i) := by
    intro mat i
    fin_cases i <;> rfl
  refine ⟨helem, ?_⟩
  funext i
  rw [helem mat4Ident i]
  fin_cases i <;> first | exact h0 | exact h1

/-- Claim C10 witness: the exact (identity) conversion on `ℚ`. -/
theorem Mat4From64to32Bits_spec_witness :
    Mat4From64to32Bits (id : ℚ → ℚ) mat4Ident = mat4Ident :=
  (Mat4From64to32Bits_spec id rfl rfl).2

/-! ## `texture.go`: the GL state machine and the image model

OpenGL enum values used by the source, from the `gl` package. -/

def TEXTURE_2D : ℤ := 3553

def TEXTURE0 : ℤ := 33984

def TEXTURE_MIN_FILTER : ℤ := 10241

def TEXTURE_MAG_FILTER : ℤ := 10240

def TEXTURE_WRAP_S : ℤ := 10242

def TEXTURE_WRAP_T : ℤ := 10243

def LINEAR : ℤ := 9729

def CLAMP_TO_EDGE : ℤ := 33071

def RED : ℤ := 6403

def RGBA : ℤ := 6408

def UNSIGNED_BYTE : ℤ := 5121

/-- One call into the Graphics Device API, as recorded in the trace. -/
inductive GLCall where
  | genTextures (id : ℤ)
  | activeTexture (unit : ℤ)
  | bindTexture (target : ℤ) (id : ℤ)
  | texParameteri (target : ℤ) (pname : ℤ) (param : ℤ)
  | texImage2D (target level internalFormat w h border format type : ℤ)
      (pix : List ℕ)
deriving DecidableEq, Repr

/-- The ambient state: GL context state (fresh-name counter, bound
`TEXTURE_2D` name, active texture unit), the trace of GL calls made, and
the lines printed to standard output. -/
structure World where
  nextTextureId : ℤ
  bound2D : ℤ
  activeUnit : ℤ
  calls : List GLCall
  stdout : List String
deriving DecidableEq, Repr

/-- The initial state: no texture bound, first generated name is 1. -/
def initWorld : World := ⟨1, 0, 0, [], []⟩

/-- `gl.GenTextures(1, &id)`: hands out a fresh non-zero texture name. -/
def glGenTexture (s : World) : ℤ × World :=
  (s.nextTextureId,
   { s with nextTextureId := s.nextTextureId + 1,
            calls := s.calls ++ [.genTextures s.nextTextureId] })

/-- `gl.ActiveTexture(unit)`. -/
def glActiveTexture (unit : ℤ) (s : World) : World :=
  { s with activeUnit := unit, calls := s.calls ++ [.activeTexture unit] }

/-- `gl.BindTexture(target, id)`. -/
def glBindTexture (target id : ℤ) (s : World) : World :=
  { s with bound2D := id, calls := s.calls ++ [.bindTexture target id] }

/-- `gl.TexParameteri(target, pname, param)`. -/
def glTexParameteri (target pname param : ℤ) (s : World) : World :=
  { s with calls := s.calls ++ [.texParameteri target pname param] }

/-- `gl.TexImage2D(target, level, internalFormat, w, h, border, format,
type, gl.Ptr(pix))`. -/
def glTexImage2D (target level internalFormat w h border format ty : ℤ)
    (pix : List ℕ) (s : World) : World :=
  { s with calls := s.calls ++
      [.texImage2D target level internalFormat w h border format ty pix] }

/-- `fmt.Printf` / `fmt.Println`: appends one line to standard output. -/
def printLine (msg : String) (s : World) : World :=
  { s with stdout := s.stdout ++ [msg] }

/-- Go `int32(n)` on a (64-bit) `int` value: wrap into [−2³¹, 2³¹). -/
def toInt32 (n : ℤ) : ℤ := (n + 2 ^ 31) % 2 ^ 32 - 2 ^ 31

/-- Go `uint32(n)` on an `int32` value: wrap into [0, 2³²). -/
def toUint32 (n : ℤ) : ℤ := n % 2 ^ 32

theorem toInt32_eq_self (n : ℤ) (h0 : 0 ≤ n) (h1 : n < 2 ^ 31) :
    toInt32 n = n := by
  unfold toInt32
  rw [Int.emod_eq_of_lt (by omega) (by omega)]
  omega

/-- The dynamic pixel layout of a decoded `image.Image`, i.e. which arm of
the `switch imageData.(type)` fires. -/
inductive ImageKind where
  | gray16
  | nrgba
  | other
deriving DecidableEq, Repr

/-- A decoded image together with the behaviour of the external conversion
buffers the source allocates for it.  `width`/`height` are
`Bounds().Dx()`/`Dy()`.  `grayStride`/`grayPix` are the stride and (post
`draw.Draw`) pixel bytes of the `image.NewGray` conversion buffer used on
the Gray16 path; `rgbaStride`/`rgbaPix` likewise for the `image.NewRGBA`
buffer of the generic path; `nrgbaPix` is the `Pix` slice uploaded directly
on the NRGBA path.  The strides are model inputs because the standard
library's buffer layout is an external collaborator; Go's actual
`image.NewGray`/`image.NewRGBA` always produce `grayStride = width` and
`rgbaStride = 4 * width`. -/
structure GoImage where
  width : ℤ
  height : ℤ
  kind : ImageKind
  nrgbaPix : List ℕ
  grayStride : ℤ
  grayPix : List ℕ
  rgbaStride : ℤ
  rgbaPix : List ℕ
deriving DecidableEq, Repr

/-- `Texture`: a GPU handle plus the pixel dimensions (`int32` fields). -/
structure Texture where
  id : ℤ
  width : ℤ
  height : ℤ
deriving DecidableEq, Repr

/-- `NewTextureFromImage`: allocates a handle, binds it, sets the fixed
sampler parameters, dispatches the upload on the image's dynamic type, and
unbinds on the successful paths.  Returns `none` for Go's `nil` result. -/
def NewTextureFromImage (imageData : GoImage) (s : World) :
    Option Texture × World :=
  let tw := toInt32 imageData.width
  let th := toInt32 imageData.height
  let gen := glGenTexture s
  let id := gen.1
  let s1 := glActiveTexture TEXTURE0 gen.2
  let s2 := glBindTexture TEXTURE_2D id s1
  let s3 := glTexParameteri TEXTURE_2D TEXTURE_MIN_FILTER LINEAR s2
  let s4 := glTexParameteri TEXTURE_2D TEXTURE_MAG_FILTER LINEAR s3
  let s5 := glTexParameteri TEXTURE_2D TEXTURE_WRAP_S CLAMP_TO_EDGE s4
  let s6 := glTexParameteri TEXTURE_2D TEXTURE_WRAP_T CLAMP_TO_EDGE s5
  match imageData.kind with
  | .gray16 =>
    if imageData.grayStride ≠ imageData.width * 1 then
      (none, printLine "Error creating texture: unsupported stride" s6)
    else
      let s7 := glTexImage2D TEXTURE_2D 0 RED tw th 0 RED UNSIGNED_BYTE
        imageData.grayPix s6
      let s8 := glBindTexture TEXTURE_2D 0 s7
      (some ⟨id, tw, th⟩, s8)
  | .nrgba =>
    let s7 := glTexImage2D TEXTURE_2D 0 RGBA tw th 0 RGBA UNSIGNED_BYTE
      imageData.nrgbaPix s6
    let s8 := glBindTexture TEXTURE_2D 0 s7
    (some ⟨id, tw, th⟩, s8)
  | .other =>
    if imageData.rgbaStride ≠ imageData.width * 4 then
      (none, printLine "Error creating texture: unsupported stride" s6)
    else
      let s7 := glTexImage2D TEXTURE_2D 0 RGBA tw th 0 RGBA UNSIGNED_BYTE
        imageData.rgbaPix s6
      let s8 := glBindTexture TEXTURE_2D 0 s7
      (some ⟨id, tw, th⟩, s8)

/-- `NewTextureFromFile`: opens the file and decodes it through the
external Image Decoder, then delegates to `NewTextureFromImage`.  The
decoder is a model input: `openResult` is the outcome of `os.Open`
(`.error msg` for a failed open), `decodeResult`/`decodeFormat` the outcome
of `image.Decode` (`none` when the byte stream cannot be interpreted,
together with the detected format name). -/
def NewTextureFromFile (filePath : String) (openResult : Except String Unit)
    (decodeResult : Option GoImage) (decodeFormat : String) (s : World) :
    Option Texture × World :=
  match openResult with
  | .error err =>
    (none, printLine ("Error loading texture. " ++ err) s)
  | .ok _ =>
    match decodeResult with
    | none =>
      (none, printLine ("Error decoding <" ++ decodeFormat ++ "> image: '" ++
        filePath ++ "'") s)
    | some img => NewTextureFromImage img s

/-- The host's largest `int` value (64-bit), used by the standard
library's `image.NewRGBA` overflow check. -/
def maxInt64 : ℤ := 2 ^ 63 - 1

/-- `NewEmptyTexture`: allocates a zero-filled RGBA buffer of the given
size via `image.NewRGBA` and uploads it with `pixelFormat` as internal
format and `uint32(pixelFormat)` as source format.  `Except.error` models
the panic that `image.NewRGBA` raises on negative or huge dimensions
(`pixelBufferLength`); the `Option String` component is the Go `error`
return value, always `none`. -/
def NewEmptyTexture (width height : ℤ) (pixelFormat : ℤ) (s : World) :
    Except String ((Option Texture × Option String) × World) :=
  if width < 0 ∨ height < 0 ∨ 4 * width * height > maxInt64 then
    .error "image: NewRGBA Rectangle has huge or negative dimensions"
  else
    let pix : List ℕ := List.replicate (4 * width * height).toNat 0
    let tw := toInt32 width
    let th := toInt32 height
    let gen := glGenTexture s
    let id := gen.1
    let s1 := glActiveTexture TEXTURE0 gen.2
    let s2 := glBindTexture TEXTURE_2D id s1
    let s3 := glTexParameteri TEXTURE_2D TEXTURE_MIN_FILTER LINEAR s2
    let s4 := glTexParameteri TEXTURE_2D TEXTURE_MAG_FILTER LINEAR s3
    let s5 := glTexParameteri TEXTURE_2D TEXTURE_WRAP_S CLAMP_TO_EDGE s4
    let s6 := glTexParameteri TEXTURE_2D TEXTURE_WRAP_T CLAMP_TO_EDGE s5
    let s7 := glTexImage2D TEXTURE_2D 0 pixelFormat tw th 0
      (toUint32 pixelFormat) UNSIGNED_BYTE pix s6
    let s8 := glBindTexture TEXTURE_2D 0 s7
    .ok ((some ⟨id, tw, th⟩, none), s8)

/-- `Texture.Bind`: binds this texture's handle; the texture value itself
is returned unchanged (the method mutates only GPU state). -/
def Texture.Bind (t : Texture) (s : World) : Texture × World :=
  (t, glBindTexture TEXTURE_2D t.id s)

/-- `Texture.Unbind`: binds name 0; the texture value is unchanged. -/
def Texture.Unbind (t : Texture) (s : World) : Texture × World :=
  (t, glBindTexture TEXTURE_2D 0 s)

/-- `Texture.ID`: pure accessor. -/
def Texture.ID (t : Texture) : ℤ := t.id

/-- `Texture.Width`: pure accessor. -/
def Texture.Width (t : Texture) : ℤ := t.width

/-- `Texture.Height`: pure accessor. -/
def Texture.Height (t : Texture) : ℤ := t.height

/-- A 2×2 Gray16 image whose `image.NewGray` conversion buffer reports a
padded stride (3 ≠ 2·1). -/
def strideImg : GoImage := ⟨2, 2, .gray16, [], 3, [0, 0, 0, 0], 8, []⟩

/-- A 4×4 NRGBA image with a tightly packed 64-byte pixel buffer. -/
def nrgbaImg : GoImage := ⟨4, 4, .nrgba, List.replicate 64 0, 4, [], 16, []⟩

/-- A 2×2 generic-layout image whose `image.NewRGBA` conversion buffer
reports a padded stride (9 ≠ 2·4). -/
def paddedImg : GoImage := ⟨2, 2, .other, [], 2, [], 9, []⟩

/-! ## Claims about `texture.go` -/

/-- Claim C1 counterexample: on the unsupported-stride failure path the
function returns `nil` with the freshly generated texture name (1, not 0)
still bound to `TEXTURE_2D` — the binding is NOT restored to slot 0. -/
theorem NewTextureFromImage_stride_leaves_bound :
    (NewTextureFromImage strideImg initWorld).1 = none ∧
    (NewTextureFromImage strideImg initWorld).2.bound2D = 1 ∧ (1 : ℤ) ≠ 0 := by
  decide

/-- Claim C1 (amended): `NewTextureFromImage` binds the newly allocated
texture (name `s.nextTextureId`) while configuring it; on every successful
return the `TEXTURE_2D` binding is restored to 0, while on the
unsupported-stride failure paths the new texture is left bound. -/
theorem NewTextureFromImage_binding (imageData : GoImage) (s : World) :
    ((NewTextureFromImage imageData s).1.isSome = true →
      (NewTextureFromImage imageData s).2.bound2D = 0) ∧
    ((NewTextureFromImage imageData s).1 = none →
      (NewTextureFromImage imageData s).2.bound2D = s.nextTextureId) ∧
    GLCall.bindTexture TEXTURE_2D s.nextTextureId ∈
      (NewTextureFromImage imageData s).2.calls := by
  rcases imageData with ⟨w, h, k, np, gs, gp, rs, rp⟩
  cases k <;>
    simp only [NewTextureFromImage, glGenTexture, glActiveTexture,
      glBindTexture, glTexParameteri, glTexImage2D, printLine]
  · split_ifs with hstr <;>
      refine ⟨fun hh => ?_, fun hc => ?_, ?_⟩ <;> simp_all
  · refine ⟨fun hh => ?_, fun hc => ?_, ?_⟩ <;> simp_all
  · split_ifs with hstr <;>
      refine ⟨fun hh => ?_, fun hc => ?_, ?_⟩ <;> simp_all

/-- Claim C1 witness: on a successful (NRGBA) creation the final binding
is 0. -/
theorem NewTextureFromImage_binding_witness :
    (NewTextureFromImage nrgbaImg initWorld).2.bound2D = 0 :=
  (NewTextureFromImage_binding nrgbaImg initWorld).1 (by decide)

/-- Claim C3: on the Gray16 and generic-conversion paths, a converted
buffer whose stride differs from width·1 (resp. width·4) makes
`NewTextureFromImage` return `nil` and print the stride diagnostic (the
model is total: no panic). -/
theorem NewTextureFromImage_stride_failure :
    (∀ (imageData : GoImage) (s : World), imageData.kind = .gray16 →
      imageData.grayStride ≠ imageData.width * 1 →
      (NewTextureFromImage imageData s).1 = none ∧
      "Error creating texture: unsupported stride" ∈
        (NewTextureFromImage imageData s).2.stdout) ∧
    (∀ (imageData : GoImage) (s : World), imageData.kind = .other →
      imageData.rgbaStride ≠ imageData.width * 4 →
      (NewTextureFromImage imageData s).1 = none ∧
      "Error creating texture: unsupported stride" ∈
        (NewTextureFromImage imageData s).2.stdout) := by
  constructor
  · rintro ⟨w, h, k, np, gs, gp, rs, rp⟩ s hk hstr
    simp only [] at hk hstr
    subst hk
    simp only [NewTextureFromImage, glGenTexture, glActiveTexture,
      glBindTexture, glTexParameteri, printLine]
    rw [if_pos hstr]
    simp [printLine]
  · rintro ⟨w, h, k, np, gs, gp, rs, rp⟩ s hk hstr
    simp only [] at hk hstr
    subst hk
    simp only [NewTextureFromImage, glGenTexture, glActiveTexture,
      glBindTexture, glTexParameteri, printLine]
    rw [if_pos hstr]
    simp [printLine]

/-- Claim C3 witness: a 2×2 generic-layout image with a padded conversion
stride. -/
theorem NewTextureFromImage_stride_failure_witness :
    (NewTextureFromImage paddedImg initWorld).1 = none ∧
    "Error creating texture: unsupported stride" ∈
      (NewTextureFromImage paddedImg initWorld).2.stdout :=
  NewTextureFromImage_stride_failure.2 paddedImg initWorld rfl (by decide)

/-- Claim C4: when the Image Decoder cannot interpret the byte stream
(`image.Decode` fails), `NewTextureFromFile` returns `nil` and prints the
diagnostic naming the detected format and the path; no GL call is issued
and the model is total (no panic). -/
theorem NewTextureFromFile_decode_failure (filePath decodeFormat : String)
    (s : World) :
    (NewTextureFromFile filePath (.ok ()) none decodeFormat s).1 = none ∧
    (NewTextureFromFile filePath (.ok ()) none decodeFormat s).2.stdout =
      s.stdout ++ ["Error decoding <" ++ decodeFormat ++ "> image: '" ++
        filePath ++ "'"] ∧
    (NewTextureFromFile filePath (.ok ()) none decodeFormat s).2.calls =
      s.calls :=
  ⟨rfl, rfl, rfl⟩

/-- Claim C7: a texture successfully created from an image has the source
image's bounds dimensions (for dimensions in `int32` range), and Bind,
Unbind, ID, Width and Height never change the texture's id, width or
height fields. -/
theorem Texture_dimensions_invariant (imageData : GoImage) (s : World)
    (t : Texture)
    (hw0 : 0 ≤ imageData.width) (hw1 : imageData.width < 2 ^ 31)
    (hh0 : 0 ≤ imageData.height) (hh1 : imageData.height < 2 ^ 31)
    (hres : (NewTextureFromImage imageData s).1 = some t) :
    t.width = imageData.width ∧ t.height = imageData.height ∧
    Texture.Width t = t.width ∧ Texture.Height t = t.height ∧
    Texture.ID t = t.id ∧
    ∀ w : World, (Texture.Bind t w).1 = t ∧ (Texture.Unbind t w).1 = t := by
  have ht : t = ⟨s.nextTextureId, toInt32 imageData.width,
      toInt32 imageData.height⟩ := by
    rcases imageData with ⟨w, h, k, np, gs, gp, rs, rp⟩
    cases k <;>
      simp only [NewTextureFromImage, glGenTexture, glActiveTexture,
        glBindTexture, glTexParameteri, glTexImage2D, printLine] at hres
    · split at hres
      · exact absurd hres (by simp)
      · simp only [Option.some.injEq] at hres
        exact hres.symm
    · simp only [Option.some.injEq] at hres
      exact hres.symm
    · split at hres
      · exact absurd hres (by simp)
      · simp only [Option.some.injEq] at hres
        exact hres.symm
  subst ht
  exact ⟨toInt32_eq_self _ hw0 hw1, toInt32_eq_self _ hh0 hh1, rfl, rfl, rfl,
    fun w => ⟨rfl, rfl⟩⟩

/-- Claim C7 witness: a 4×4 NRGBA image from the initial state. -/
theorem Texture_dimensions_invariant_witness :
    (⟨1, 4, 4⟩ : Texture).width = nrgbaImg.width ∧
    (⟨1, 4, 4⟩ : Texture).height = nrgbaImg.height ∧
    Texture.Width ⟨1, 4, 4⟩ = (⟨1, 4, 4⟩ : Texture).width ∧
    Texture.Height ⟨1, 4, 4⟩ = (⟨1, 4, 4⟩ : Texture).height ∧
    Texture.ID ⟨1, 4, 4⟩ = (⟨1, 4, 4⟩ : Texture).id ∧
    ∀ w : World, (Texture.Bind ⟨1, 4, 4⟩ w).1 = ⟨1, 4, 4⟩ ∧
      (Texture.Unbind ⟨1, 4, 4⟩ w).1 = ⟨1, 4, 4⟩ :=
  Texture_dimensions_invariant nrgbaImg initWorld ⟨1, 4, 4⟩ (by decide)
    (by decide) (by decide) (by decide) (by decide)

/-- Claim C8 counterexample: at width −1 the call does not return a
texture at all — `image.NewRGBA` panics on negative dimensions. -/
theorem NewEmptyTexture_negative_dims :
    NewEmptyTexture (-1) 1 RGBA initWorld =
      Except.error "image: NewRGBA Rectangle has huge or negative dimensions" :=
  rfl

/-- Claim C8 (amended): for non-negative dimensions in `int32` range whose
RGBA buffer size fits the host int, `NewEmptyTexture` returns a non-nil
texture of the requested dimensions with a nil error, and uploads a
zero-filled 4·width·height-byte RGBA buffer with `pixelFormat` as internal
format and its unsigned 32-bit value as source format. -/
theorem NewEmptyTexture_spec (width height pixelFormat : ℤ) (s : World)
    (hw0 : 0 ≤ width) (hw1 : width < 2 ^ 31)
    (hh0 : 0 ≤ height) (hh1 : height < 2 ^ 31)
    (hsz : 4 * width * height ≤ maxInt64) :
    NewEmptyTexture width height pixelFormat s =
      .ok ((some ⟨s.nextTextureId, width, height⟩, none),
        { nextTextureId := s.nextTextureId + 1
          bound2D := 0
          activeUnit := TEXTURE0
          calls := s.calls ++
            [.genTextures s.nextTextureId, .activeTexture TEXTURE0,
             .bindTexture TEXTURE_2D s.nextTextureId,
             .texParameteri TEXTURE_2D TEXTURE_MIN_FILTER LINEAR,
             .texParameteri TEXTURE_2D TEXTURE_MAG_FILTER LINEAR,
             .texParameteri TEXTURE_2D TEXTURE_WRAP_S CLAMP_TO_EDGE,
             .texParameteri TEXTURE_2D TEXTURE_WRAP_T CLAMP_TO_EDGE,
             .texImage2D TEXTURE_2D 0 pixelFormat width height 0
               (toUint32 pixelFormat) UNSIGNED_BYTE
               (List.replicate (4 * width * height).toNat 0),
             .bindTexture TEXTURE_2D 0]
          stdout := s.stdout }) ∧
    Texture.Width ⟨s.nextTextureId, width, height⟩ = width ∧
    Texture.Height ⟨s.nextTextureId, width, height⟩ = height := by
  refine ⟨?_, rfl, rfl⟩
  unfold NewEmptyTexture
  rw [if_neg (by push_neg; exact ⟨hw0, hh0, hsz⟩)]
  simp only [glGenTexture, glActiveTexture, glBindTexture, glTexParameteri,
    glTexImage2D, toInt32_eq_self width hw0 hw1,
    toInt32_eq_self height hh0 hh1, List.append_assoc, List.cons_append,
    List.nil_append, List.singleton_append]

/-- Claim C8 witness: a 2×3 texture with the RGBA format selector. -/
theorem NewEmptyTexture_spec_witness :
    NewEmptyTexture 2 3 RGBA initWorld =
      .ok ((some ⟨1, 2, 3⟩, none),
        { nextTextureId := 2
          bound2D := 0
          activeUnit := TEXTURE0
          calls :=
            [.genTextures 1, .activeTexture TEXTURE0,
             .bindTexture TEXTURE_2D 1,
             .texParameteri TEXTURE_2D TEXTURE_MIN_FILTER LINEAR,
             .texParameteri TEXTURE_2D TEXTURE_MAG_FILTER LINEAR,
             .texParameteri TEXTURE_2D TEXTURE_WRAP_S CLAMP_TO_EDGE,
             .texParameteri TEXTURE_2D TEXTURE_WRAP_T CLAMP_TO_EDGE,
             .texImage2D TEXTURE_2D 0 RGBA 2 3 0 (toUint32 RGBA)
               UNSIGNED_BYTE (List.replicate 24 0),
             .bindTexture TEXTURE_2D 0]
          stdout := [] }) ∧
    Texture.Width ⟨1, 2, 3⟩ = 2 ∧ Texture.Height ⟨1, 2, 3⟩ = 3 :=
  NewEmptyTexture_spec 2 3 RGBA initWorld (by decide) (by decide) (by decide)
    (by decide) (by decide)
